import Mathlib

/-!
Verification of the portal-user provisioning slice of the crm-portal-fix
repository: the SQL deduplication procedure `clean_duplicate_usuarios`, the
SQL synchronization procedure `sync_user_after_auth_creation`
(src/database/migrations/fix_auth_sync.sql), and the TypeScript orchestrator
`createPortalUser` together with the diagnostic `testUserSync`
(src/src/lib/portalAuth.ts).

The relational store is modelled as lists of rows; identifiers are `Nat`,
timestamps are `Nat`, SQL NULL is `Option`.  Outcomes of remote calls that
are decided outside the program (network failures of an RPC, the
authentication provider accepting or rejecting `createUser`, a failure of the
compensating `deleteUser`, an injected error on a select) are supplied by an
explicit environment record, so that every execution path of the code is a
value of a total function.
-/

set_option maxHeartbeats 1000000

namespace PortalFix

/-- A row of `public.usuarios` (the Profile table).  Columns are the ones the
migration touches: `id` (primary key), `nome`, `email`, `tipo_usuario`,
`tenant_id`, `created_by`, `updated_by`, plus the soft-delete marker
`deleted_at` and the creation timestamp `created_at` used by the
deduplication procedure. -/
structure Usuario where
  id : Nat
  nome : String
  email : String
  tipo_usuario : String
  tenant_id : Nat
  created_by : Nat
  updated_by : Nat
  deleted_at : Option Nat
  created_at : Nat
  deriving DecidableEq, Repr

/-- A row of `public.clientes` (the Customer table), restricted to the
columns written by `sync_user_after_auth_creation`. -/
structure Cliente where
  id : Nat
  usuario_portal_id : Option Nat
  updated_at : Nat
  updated_by : Option Nat
  deriving DecidableEq, Repr

/-- The relational database state: the two tables and the value the SQL
`NOW()` / `created_at` default evaluates to. -/
structure DBState where
  usuarios : List Usuario
  clientes : List Cliente
  now : Nat
  deriving DecidableEq, Repr

/-- A record of `auth.users`, the authentication provider's user store, with
the attributes the code reads: provider-assigned id and email. -/
structure AuthUser where
  id : Nat
  email : String
  deriving DecidableEq, Repr

/-- The complete observable state: the provider's user store plus the
relational database. -/
structure World where
  auth : List AuthUser
  db : DBState
  deriving DecidableEq, Repr

/-- `ORDER BY created_at DESC LIMIT 1`: the row with maximal `created_at`
(first listed row wins ties, matching one admissible SQL execution). -/
def mostRecent : List Usuario → Option Usuario
  | [] => none
  | u :: us =>
    match mostRecent us with
    | none => some u
    | some v => if v.created_at > u.created_at then some v else some u

/-- `clean_duplicate_usuarios(p_email)` from fix_auth_sync.sql lines 4-21:
first `DELETE FROM usuarios WHERE email = p_email AND deleted_at IS NOT
NULL`; then `DELETE FROM usuarios WHERE email = p_email AND id NOT IN (SELECT
id FROM usuarios WHERE email = p_email AND deleted_at IS NULL ORDER BY
created_at DESC LIMIT 1)`.  When the subquery is empty, `id NOT IN (∅)` holds
of every row, as in SQL. -/
def clean_duplicate_usuarios (p_email : String) (db : DBState) : DBState :=
  let us1 := db.usuarios.filter fun u => !(u.email == p_email && u.deleted_at.isSome)
  let active := us1.filter fun u => u.email == p_email && u.deleted_at.isNone
  let keepId := (mostRecent active).map Usuario.id
  let us2 := us1.filter fun u => !(u.email == p_email && !(some u.id == keepId))
  { db with usuarios := us2 }

/-- The JSON value returned by `sync_user_after_auth_creation`. -/
structure SyncResult where
  success : Bool
  user_id : Option Nat
  error : Option String
  deriving DecidableEq, Repr

/-- The `usuarios` row built by the INSERT of `sync_user_after_auth_creation`
(fix_auth_sync.sql lines 69-85): `id`, `tenant_id`, `created_by` and
`updated_by` all receive `p_auth_user_id`; `tipo_usuario` is the literal
`'cliente'`; `deleted_at` and `created_at` take their column defaults. -/
def sync_inserted_row (p_auth_user_id : Nat) (p_email p_nome : String) (now : Nat) : Usuario :=
  { id := p_auth_user_id, nome := p_nome, email := p_email,
    tipo_usuario := "cliente", tenant_id := p_auth_user_id,
    created_by := p_auth_user_id, updated_by := p_auth_user_id,
    deleted_at := none, created_at := now }

/-- The per-row effect of the UPDATE of `sync_user_after_auth_creation`
(fix_auth_sync.sql lines 88-93): rows whose `id` equals `p_cliente_id` get
`usuario_portal_id`, `updated_at` and `updated_by` set; all others are left
alone. -/
def sync_cliente_update (p_auth_user_id p_cliente_id now : Nat) (c : Cliente) : Cliente :=
  if c.id == p_cliente_id then
    { c with usuario_portal_id := some p_auth_user_id,
             updated_at := now, updated_by := some p_auth_user_id }
  else c

/-- `sync_user_after_auth_creation(p_auth_user_id, p_email, p_nome,
p_cliente_id)` from fix_auth_sync.sql lines 59-107: INSERT a `usuarios` row
whose `id`, `tenant_id`, `created_by` and `updated_by` all equal
`p_auth_user_id`; UPDATE every `clientes` row with `id = p_cliente_id` to
reference it; return `{success:true, user_id}`.  A primary-key violation on
the INSERT (a row with that id already exists) raises, and the
`EXCEPTION WHEN OTHERS` handler rolls the block back and returns
`{success:false, error}`. -/
def sync_user_after_auth_creation (p_auth_user_id : Nat) (p_email p_nome : String)
    (p_cliente_id : Nat) (db : DBState) : SyncResult × DBState :=
  if db.usuarios.any fun u => u.id == p_auth_user_id then
    ({ success := false, user_id := none,
       error := some "Erro ao sincronizar usuário: duplicate key value violates unique constraint" },
     db)
  else
    ({ success := true, user_id := some p_auth_user_id, error := none },
     { db with
         usuarios := db.usuarios ++ [sync_inserted_row p_auth_user_id p_email p_nome db.now],
         clientes := db.clientes.map (sync_cliente_update p_auth_user_id p_cliente_id db.now) })

/-- Outcomes of the remote calls made by `createPortalUser` that are decided
by the environment (network, authentication provider, injected select
errors), one field per call site in portalAuth.ts:
`cleanFails` — the `clean_duplicate_usuarios` RPC errors (line 33);
`checkFails` — the existence select returns an error other than PGRST116
(line 46), with its message;
`authCreate` — `auth.admin.createUser` either errors with a message or
assigns a fresh id (lines 58-72);
`authUserMissing` — the provider reports success but `authData.user` is
absent (line 74);
`syncRpcFails` — the `sync_user_after_auth_creation` RPC itself errors
before reaching the procedure (line 89), with its message;
`deleteFails` — the compensating `auth.admin.deleteUser` throws
(lines 94, 106);
`verifyFails` — the final verification select errors (line 121). -/
structure Env where
  cleanFails : Bool
  checkFails : Option String
  authCreate : Except String Nat
  authUserMissing : Bool
  syncRpcFails : Option String
  deleteFails : Bool
  verifyFails : Bool
  deriving Repr

/-- The `CreatePortalUserResponse` record of portalAuth.ts. -/
structure Response where
  success : Bool
  error : Option String
  message : Option String
  userId : Option Nat
  deriving DecidableEq, Repr

/-- A failure response `{success: false, error}` as built by the
`catch` block of `createPortalUser`. -/
def failResp (e : String) : Response :=
  { success := false, error := some e, message := none, userId := none }

/-- JavaScript `x || d` on an optional string: the default is used when the
string is absent or empty. -/
def jsOr (s : Option String) (d : String) : String :=
  match s with
  | some v => if v == "" then d else v
  | none => d

/-- The non-deleted `usuarios` rows carrying an email: what the existence
check of step 2 selects (`.eq('email', email).is('deleted_at', null)`). -/
def activeWithEmail (email : String) (db : DBState) : List Usuario :=
  db.usuarios.filter fun u => u.email == email && u.deleted_at.isNone

/-- The state after step 1 of `createPortalUser`: the deduplication RPC ran
(or errored with no effect, a tolerated failure — portalAuth.ts line 35
continues regardless). -/
def afterClean (env : Env) (email : String) (w : World) : World :=
  if env.cleanFails then w
  else { w with db := clean_duplicate_usuarios email w.db }

/-- `createPortalUser` from portalAuth.ts lines 22-147.  Step 1 runs the
deduplication RPC, continuing on error; step 2 fetches a single non-deleted
profile with the email (PostgREST `.single()` succeeds exactly when one row
matches, and its no-single-row error code PGRST116 is tolerated), returning
the duplicate-email failure when one is found; step 3 creates the provider
identity; step 4 runs the synchronization RPC, and on either an RPC error or
a structured `success: false` result performs a best-effort compensating
`deleteUser` and fails with the underlying reason; step 5 re-fetches the
profile by the new id and fails without compensation when it cannot be read
back; otherwise the call succeeds with the provider-assigned id.  Every
`throw` is caught by the surrounding `try`/`catch`, which turns it into a
`{success:false, error}` response. -/
def createPortalUser (env : Env) (email _password nomeCliente : String)
    (clienteId : Nat) (w : World) : Response × World :=
  let w1 := afterClean env email w
  match env.checkFails with
  | some msg => (failResp ("Erro ao verificar usuário existente: " ++ msg), w1)
  | none =>
    if (activeWithEmail email w1.db).length == 1 then
      (failResp "Este email já está cadastrado no sistema", w1)
    else
      match env.authCreate with
      | .error msg => (failResp ("Erro na autenticação: " ++ msg), w1)
      | .ok authUserId =>
        if env.authUserMissing then
          (failResp "Usuário não foi criado corretamente", w1)
        else
          let w2 := { w1 with auth := w1.auth ++ [{ id := authUserId, email := email }] }
          match env.syncRpcFails with
          | some msg =>
            let w3 := if env.deleteFails then w2
                      else { w2 with auth := w2.auth.filter fun a => !(a.id == authUserId) }
            (failResp ("Erro ao sincronizar usuário: " ++ msg), w3)
          | none =>
            let res := sync_user_after_auth_creation authUserId email nomeCliente clienteId w2.db
            let w3 := { w2 with db := res.snd }
            if res.fst.success then
              if env.verifyFails || !(w3.db.usuarios.any fun u => u.id == authUserId) then
                (failResp "Usuário criado mas não encontrado na verificação", w3)
              else
                ({ success := true, error := none,
                   message := some "Portal criado com sucesso! O cliente pode agora fazer login.",
                   userId := some authUserId }, w3)
            else
              let w4 := if env.deleteFails then w3
                        else { w3 with auth := w3.auth.filter fun a => !(a.id == authUserId) }
              (failResp (jsOr res.fst.error "Erro desconhecido na sincronização"), w4)

/-- Environment for `testUserSync`: whether `auth.admin.listUsers` errors and
whether the profile select errors beyond its data-dependent single-row
behaviour. -/
structure TestEnv where
  listFails : Bool
  fetchFails : Bool
  deriving DecidableEq, Repr

/-- The record `testUserSync` returns on its success path. -/
structure SyncCheck where
  authId : Nat
  publicId : Nat
  idsMatch : Bool
  deriving DecidableEq, Repr

/-- `testUserSync(email)` from portalAuth.ts lines 184-232: list the provider
users and take the first with the email; fetch the single non-deleted
profile with the email; report both ids and whether they match.  Every early
exit (list error, no provider user, select error, zero or several matching
rows) returns no result.  The function performs no writes, so it returns the
world unchanged. -/
def testUserSync (env : TestEnv) (email : String) (w : World) :
    Option SyncCheck × World :=
  if env.listFails then (none, w)
  else
    match w.auth.find? fun a => a.email == email with
    | none => (none, w)
    | some authUser =>
      if env.fetchFails then (none, w)
      else
        match w.db.usuarios.filter fun u => u.email == email && u.deleted_at.isNone with
        | [u] => (some { authId := authUser.id, publicId := u.id,
                         idsMatch := authUser.id == u.id }, w)
        | _ => (none, w)

/-! ### Lemmas about `mostRecent` (the `ORDER BY created_at DESC LIMIT 1` subquery) -/

theorem mostRecent_eq_none_iff (l : List Usuario) : mostRecent l = none ↔ l = [] := by
  induction l with
  | nil => simp [mostRecent]
  | cons u us ih =>
    simp only [mostRecent]
    cases h : mostRecent us with
    | none => simp
    | some v => simp only [h]; split <;> simp

theorem mostRecent_mem : ∀ {l : List Usuario} {u : Usuario}, mostRecent l = some u → u ∈ l := by
  intro l
  induction l with
  | nil => intro u h; simp [mostRecent] at h
  | cons a as ih =>
    intro u h
    simp only [mostRecent] at h
    cases h2 : mostRecent as with
    | none =>
      simp only [h2] at h
      simp only [Option.some.injEq] at h
      subst h
      exact List.mem_cons_self a as
    | some v =>
      simp only [h2] at h
      by_cases hc : v.created_at > a.created_at
      · rw [if_pos hc] at h
        simp only [Option.some.injEq] at h
        subst h
        exact List.mem_cons_of_mem a (ih h2)
      · rw [if_neg hc] at h
        simp only [Option.some.injEq] at h
        subst h
        exact List.mem_cons_self a as

theorem mostRecent_le : ∀ {l : List Usuario} {u : Usuario}, mostRecent l = some u →
    ∀ v ∈ l, v.created_at ≤ u.created_at := by
  intro l
  induction l with
  | nil => intro u h; simp [mostRecent] at h
  | cons a as ih =>
    intro u h v hv
    simp only [mostRecent] at h
    cases h2 : mostRecent as with
    | none =>
      simp only [h2] at h
      simp only [Option.some.injEq] at h
      subst h
      rcases List.mem_cons.mp hv with rfl | hv2
      · exact Nat.le_refl _
      · exact absurd hv2 (by simp [(mostRecent_eq_none_iff as).mp h2])
    | some m =>
      simp only [h2] at h
      by_cases hc : m.created_at > a.created_at
      · rw [if_pos hc] at h
        simp only [Option.some.injEq] at h
        subst h
        rcases List.mem_cons.mp hv with rfl | hv2
        · omega
        · exact ih h2 v hv2
      · rw [if_neg hc] at h
        simp only [Option.some.injEq] at h
        subst h
        rcases List.mem_cons.mp hv with rfl | hv2
        · exact Nat.le_refl _
        · have := ih h2 v hv2
          omega

theorem mostRecent_exists_of_ne_nil {l : List Usuario} (h : l ≠ []) :
    ∃ m, mostRecent l = some m := by
  cases h2 : mostRecent l with
  | none => exact absurd ((mostRecent_eq_none_iff l).mp h2) h
  | some m => exact ⟨m, rfl⟩

theorem mostRecent_map_id_of_const {l : List Usuario} {i : Nat} (hne : l ≠ [])
    (h : ∀ u ∈ l, u.id = i) : (mostRecent l).map Usuario.id = some i := by
  obtain ⟨m, hm⟩ := mostRecent_exists_of_ne_nil hne
  rw [hm, Option.map_some']
  exact congrArg some (h m (mostRecent_mem hm))

theorem mostRecent_singleton (u : Usuario) : mostRecent [u] = some u := rfl

/-- In a list whose mapped ids are pairwise distinct (the primary-key
invariant of `usuarios`), filtering on the id of a member yields exactly that
member. -/
theorem filter_beq_id_singleton : ∀ {l : List Usuario}, (l.map Usuario.id).Nodup →
    ∀ {k : Usuario}, k ∈ l → (l.filter fun u => u.id == k.id) = [k] := by
  intro l
  induction l with
  | nil => intro _ k hk; simp at hk
  | cons a as ih =>
    intro hnd k hk
    rw [List.map_cons, List.nodup_cons] at hnd
    obtain ⟨ha, hnd2⟩ := hnd
    rcases List.mem_cons.mp hk with rfl | hk2
    · have hnil : (as.filter fun u => u.id == k.id) = [] := by
        rw [List.filter_eq_nil_iff]
        intro u hu hbeq
        have he : u.id = k.id := by simpa using hbeq
        exact ha (by rw [← he]; exact List.mem_map_of_mem Usuario.id hu)
      simp [List.filter_cons, hnil]
    · have hne : (a.id == k.id) = false := by
        rw [beq_eq_false_iff_ne]
        intro he
        exact ha (by rw [he]; exact List.mem_map_of_mem Usuario.id hk2)
      simp [List.filter_cons, hne, ih hnd2 hk2]

/-! ### Lemmas about `clean_duplicate_usuarios` -/

theorem clean_clientes (e : String) (db : DBState) :
    (clean_duplicate_usuarios e db).clientes = db.clientes := rfl

theorem clean_now (e : String) (db : DBState) :
    (clean_duplicate_usuarios e db).now = db.now := rfl

/-- The two DELETE statements, with the ad-hoc subquery list rewritten to the
non-deleted rows of the original table (deleting the soft-deleted rows first
does not change which rows the subquery sees). -/
theorem clean_usuarios (e : String) (db : DBState) :
    (clean_duplicate_usuarios e db).usuarios
      = (db.usuarios.filter fun u => !(u.email == e && u.deleted_at.isSome)).filter
          fun u => !(u.email == e &&
            !(some u.id == (mostRecent (activeWithEmail e db)).map Usuario.id)) := by
  have hact : ((db.usuarios.filter fun u => !(u.email == e && u.deleted_at.isSome)).filter
      fun u => u.email == e && u.deleted_at.isNone) = activeWithEmail e db := by
    simp only [activeWithEmail]
    rw [List.filter_filter]
    apply List.filter_congr
    intro u _
    cases hd : u.deleted_at <;> cases he : u.email == e <;> simp [hd, he]
  simp only [clean_duplicate_usuarios]
  rw [hact]

/-- Filtering the email rows out of the result of the first DELETE yields the
active rows of the original table. -/
theorem filter_email_step1 (e : String) (db : DBState) :
    ((db.usuarios.filter fun u => !(u.email == e && u.deleted_at.isSome)).filter
        fun u => u.email == e) = activeWithEmail e db := by
  simp only [activeWithEmail]
  rw [List.filter_filter]
  apply List.filter_congr
  intro u _
  cases hd : u.deleted_at <;> cases he : u.email == e <;> simp [hd, he]

theorem mem_clean {e : String} {db : DBState} {u : Usuario}
    (h : u ∈ (clean_duplicate_usuarios e db).usuarios) :
    u ∈ db.usuarios ∧ (u.email = e → u.deleted_at = none ∧
      some u.id = (mostRecent (activeWithEmail e db)).map Usuario.id) := by
  rw [clean_usuarios] at h
  have h2 := List.mem_filter.mp h
  have h1 := List.mem_filter.mp h2.1
  refine ⟨h1.1, fun he => ?_⟩
  have hb1 := h1.2
  have hb2 := h2.2
  have heb : (u.email == e) = true := by simp [he]
  rw [heb] at hb1 hb2
  constructor
  · cases hd : u.deleted_at with
    | none => rfl
    | some t => rw [hd] at hb1; simp at hb1
  · simp only [Bool.true_and, Bool.not_eq_eq_eq_not, Bool.not_true, Bool.not_eq_false'] at hb2
    exact eq_of_beq hb2

/-- The rows of the cleaned table that carry the email are exactly the most
recent previously-active row (or nothing when no active row existed). -/
theorem clean_filter_email (e : String) (db : DBState)
    (hnd : (db.usuarios.map Usuario.id).Nodup) :
    (clean_duplicate_usuarios e db).usuarios.filter (fun u => u.email == e)
      = (mostRecent (activeWithEmail e db)).toList := by
  rw [clean_usuarios]
  cases hm : mostRecent (activeWithEmail e db) with
  | none =>
    simp only [Option.toList]
    rw [List.filter_filter, List.filter_eq_nil_iff]
    intro u _
    simp [hm]
  | some k =>
    simp only [Option.toList]
    rw [Option.map_some']
    rw [List.filter_filter]
    have hpt : ((db.usuarios.filter fun u => !(u.email == e && u.deleted_at.isSome)).filter
        fun u => (u.email == e) && !(u.email == e && !(some u.id == some k.id)))
      = ((db.usuarios.filter fun u => !(u.email == e && u.deleted_at.isSome)).filter
        fun u => (u.id == k.id) && (u.email == e)) := by
      apply List.filter_congr
      intro u _
      cases he : u.email == e <;> cases hi : u.id == k.id <;> simp [he, hi]
    rw [hpt, ← List.filter_filter, filter_email_step1]
    apply filter_beq_id_singleton
    · have hsub : ((activeWithEmail e db).map Usuario.id).Sublist (db.usuarios.map Usuario.id) :=
        List.Sublist.map Usuario.id (List.filter_sublist db.usuarios)
      exact List.Nodup.sublist hsub hnd
    · exact mostRecent_mem hm

theorem mostRecent_toList_of_le_one {l : List Usuario} (h : l.length ≤ 1) :
    (mostRecent l).toList = l := by
  cases l with
  | nil => rfl
  | cons u us =>
    cases us with
    | nil => rfl
    | cons v vs => simp at h

theorem DBState.eq_of_fields {a b : DBState} (h1 : a.usuarios = b.usuarios)
    (h2 : a.clientes = b.clientes) (h3 : a.now = b.now) : a = b := by
  cases a; cases b; simp_all

/-- Running the deduplication a second time deletes nothing further. -/
theorem clean_idempotent (e : String) (db : DBState) :
    clean_duplicate_usuarios e (clean_duplicate_usuarios e db)
      = clean_duplicate_usuarios e db := by
  set db2 := clean_duplicate_usuarios e db with hdb2
  have hmem : ∀ u ∈ db2.usuarios, u ∈ db.usuarios ∧ (u.email = e → u.deleted_at = none ∧
      some u.id = (mostRecent (activeWithEmail e db)).map Usuario.id) := by
    intro u hu
    exact mem_clean hu
  have hstep1 : (db2.usuarios.filter fun u => !(u.email == e && u.deleted_at.isSome))
      = db2.usuarios := by
    rw [List.filter_eq_self]
    intro u hu
    cases he : u.email == e with
    | false => simp [he]
    | true =>
      have hdel := ((hmem u hu).2 (eq_of_beq he)).1
      simp [he, hdel]
  apply DBState.eq_of_fields
  · rw [clean_usuarios, hstep1]
    cases hm : mostRecent (activeWithEmail e db) with
    | none =>
      have hnoe : ∀ u ∈ db2.usuarios, (u.email == e) = false := by
        intro u hu
        cases he : u.email == e with
        | false => rfl
        | true =>
          have := ((hmem u hu).2 (eq_of_beq he)).2
          rw [hm] at this
          simp at this
      rw [List.filter_eq_self]
      intro u hu
      simp [hnoe u hu]
    | some k =>
      have hid : ∀ u ∈ db2.usuarios, u.email = e → u.id = k.id := by
        intro u hu he
        have := ((hmem u hu).2 he).2
        rw [hm, Option.map_some'] at this
        exact Option.some.inj this
      rw [List.filter_eq_self]
      intro u hu
      cases he : u.email == e with
      | false => simp [he]
      | true =>
        have hu_id := hid u hu (eq_of_beq he)
        have hkin : k ∈ db2.usuarios := by
          have hk_act : k ∈ activeWithEmail e db := mostRecent_mem hm
          have hk_props := List.mem_filter.mp hk_act
          rw [hdb2, clean_usuarios]
          have hkA := hk_props.2
          have hke : (k.email == e) = true := by
            cases h2 : k.email == e with
            | true => rfl
            | false => rw [h2] at hkA; simp at hkA
          have hknd : k.deleted_at.isNone = true := by
            cases h2 : k.deleted_at.isNone with
            | true => rfl
            | false => rw [hke, h2] at hkA; simp at hkA
          refine List.mem_filter.mpr ⟨List.mem_filter.mpr ⟨hk_props.1, ?_⟩, ?_⟩
          · cases hd : k.deleted_at with
            | none => simp [hke, hd]
            | some t => rw [hd] at hknd; simp at hknd
          · rw [hm, Option.map_some']
            simp [hke]
        have hconst : ∀ u2 ∈ activeWithEmail e db2, u2.id = k.id := by
          intro u2 hu2
          have h2 := List.mem_filter.mp hu2
          have he2 : u2.email = e := by
            have := h2.2
            cases h3 : u2.email == e with
            | true => exact eq_of_beq h3
            | false => rw [h3] at this; simp at this
          exact hid u2 h2.1 he2
        have hne : activeWithEmail e db2 ≠ [] := by
          intro hnil
          have hk2 : k ∈ activeWithEmail e db2 := by
            have hk_act : k ∈ activeWithEmail e db := mostRecent_mem hm
            have hk_props := List.mem_filter.mp hk_act
            exact List.mem_filter.mpr ⟨hkin, hk_props.2⟩
          rw [hnil] at hk2
          simp at hk2
        have hkeep2 : (mostRecent (activeWithEmail e db2)).map Usuario.id = some k.id :=
          mostRecent_map_id_of_const hne hconst
        rw [hkeep2]
        simp [he, hu_id]
  · rfl
  · rfl

/-- When the table holds no soft-deleted row and at most one row for the
email, the deduplication procedure is a no-op. -/
theorem clean_noop (e : String) (db : DBState)
    (hsoft : (db.usuarios.filter fun u => u.email == e && u.deleted_at.isSome) = [])
    (hone : (db.usuarios.filter fun u => u.email == e).length ≤ 1) :
    clean_duplicate_usuarios e db = db := by
  have hsoft2 : ∀ u ∈ db.usuarios, ¬(u.email == e && u.deleted_at.isSome) = true :=
    List.filter_eq_nil_iff.mp hsoft
  have hstep1 : (db.usuarios.filter fun u => !(u.email == e && u.deleted_at.isSome))
      = db.usuarios := by
    rw [List.filter_eq_self]
    intro u hu
    simp only [Bool.not_eq_eq_eq_not, Bool.not_true]
    exact Bool.not_eq_true _ ▸ Bool.eq_false_iff.mpr (hsoft2 u hu)
  have hAeqE : (db.usuarios.filter fun u => u.email == e && u.deleted_at.isNone)
      = db.usuarios.filter fun u => u.email == e := by
    apply List.filter_congr
    intro u hu
    cases he : u.email == e with
    | false => simp [he]
    | true =>
      have hds : (u.deleted_at.isSome) = false := by
        cases hd : u.deleted_at.isSome with
        | false => rfl
        | true => exact absurd (by rw [he, hd]; rfl) (hsoft2 u hu)
      have hdn : u.deleted_at = none := by
        cases hd : u.deleted_at with
        | none => rfl
        | some t => rw [hd] at hds; simp at hds
      simp [he, hdn]
  apply DBState.eq_of_fields
  · rw [clean_usuarios, hstep1]
    have hact : activeWithEmail e db = db.usuarios.filter fun u => u.email == e := hAeqE
    rw [List.filter_eq_self]
    intro u hu
    cases he : u.email == e with
    | false => simp [he]
    | true =>
      have humem : u ∈ db.usuarios.filter fun v => v.email == e :=
        List.mem_filter.mpr ⟨hu, he⟩
      rw [hact]
      cases hE : db.usuarios.filter fun v => v.email == e with
      | nil =>
        rw [hE] at humem
        simp at humem
      | cons r rest =>
        cases rest with
        | cons r2 rest2 =>
          rw [hE] at hone
          simp at hone
        | nil =>
          rw [hE] at humem
          have hur : u = r := by simpa using humem
          rw [mostRecent_singleton, Option.map_some']
          subst hur
          simp
  · rfl
  · rfl


/-! ### Lemmas about `sync_user_after_auth_creation` -/

theorem sync_fail_eq {a : Nat} {e n : String} {cid : Nat} {db : DBState}
    (h : (db.usuarios.any fun u => u.id == a) = true) :
    sync_user_after_auth_creation a e n cid db
      = ({ success := false, user_id := none,
           error := some "Erro ao sincronizar usuário: duplicate key value violates unique constraint" },
         db) := by
  simp [sync_user_after_auth_creation, h]

theorem sync_ok_eq {a : Nat} {e n : String} {cid : Nat} {db : DBState}
    (h : (db.usuarios.any fun u => u.id == a) = false) :
    sync_user_after_auth_creation a e n cid db
      = ({ success := true, user_id := some a, error := none },
         { db with
             usuarios := db.usuarios ++ [sync_inserted_row a e n db.now],
             clientes := db.clientes.map (sync_cliente_update a cid db.now) }) := by
  simp [sync_user_after_auth_creation, h]

theorem sync_any_of_fresh {a : Nat} {db : DBState} (hfresh : ∀ u ∈ db.usuarios, u.id ≠ a) :
    (db.usuarios.any fun u => u.id == a) = false := by
  rw [List.any_eq_false]
  intro u hu
  simp [hfresh u hu]

/-! ### Concrete data used by witnesses and counterexamples -/

def rowA1 : Usuario :=
  { id := 1, nome := "n1", email := "a", tipo_usuario := "cliente", tenant_id := 1,
    created_by := 1, updated_by := 1, deleted_at := none, created_at := 5 }

def rowA2 : Usuario :=
  { id := 2, nome := "n2", email := "a", tipo_usuario := "cliente", tenant_id := 2,
    created_by := 2, updated_by := 2, deleted_at := some 9, created_at := 7 }

def rowA3 : Usuario :=
  { id := 3, nome := "n3", email := "a", tipo_usuario := "cliente", tenant_id := 3,
    created_by := 3, updated_by := 3, deleted_at := none, created_at := 8 }

def rowB4 : Usuario :=
  { id := 4, nome := "n4", email := "b", tipo_usuario := "cliente", tenant_id := 4,
    created_by := 4, updated_by := 4, deleted_at := none, created_at := 1 }

def dbW : DBState := { usuarios := [rowA1, rowA2, rowA3, rowB4], clientes := [], now := 100 }

def cliW : Cliente := { id := 1, usuario_portal_id := none, updated_at := 0, updated_by := none }

/-- An empty world with a single customer row (id 1) and no users. -/
def wW : World := { auth := [], db := { usuarios := [], clientes := [cliW], now := 50 } }

/-- The environment in which every remote call succeeds. -/
def envOk : Env :=
  { cleanFails := false, checkFails := none, authCreate := Except.ok 7,
    authUserMissing := false, syncRpcFails := none, deleteFails := false,
    verifyFails := false }

/-! ### Claim C2 -/

/-- C2: for every email and table state (under the primary-key invariant that
`usuarios` ids are pairwise distinct), after `clean_duplicate_usuarios(email)`
runs, no row with that email is soft-deleted, at most one row with that email
remains — exactly the most recently created previously-active row — and an
email with zero or one non-deleted rows keeps exactly those rows. -/
theorem claim_C2_dedup (e : String) (db : DBState)
    (hnd : (db.usuarios.map Usuario.id).Nodup) :
    (∀ u ∈ (clean_duplicate_usuarios e db).usuarios, u.email = e → u.deleted_at = none)
    ∧ ((clean_duplicate_usuarios e db).usuarios.filter fun u => u.email == e).length ≤ 1
    ∧ ((clean_duplicate_usuarios e db).usuarios.filter fun u => u.email == e)
        = (mostRecent (activeWithEmail e db)).toList
    ∧ (∀ k, mostRecent (activeWithEmail e db) = some k →
        k ∈ db.usuarios ∧ k.deleted_at = none ∧
          ∀ v ∈ activeWithEmail e db, v.created_at ≤ k.created_at)
    ∧ ((activeWithEmail e db).length ≤ 1 →
        ((clean_duplicate_usuarios e db).usuarios.filter fun u => u.email == e)
          = activeWithEmail e db) := by
  refine ⟨fun u hu he => ((mem_clean hu).2 he).1, ?_, clean_filter_email e db hnd, ?_, ?_⟩
  · rw [clean_filter_email e db hnd]
    cases mostRecent (activeWithEmail e db) <;> simp [Option.toList]
  · intro k hk
    have hkmem := List.mem_filter.mp (mostRecent_mem hk)
    refine ⟨hkmem.1, ?_, mostRecent_le hk⟩
    have hb := hkmem.2
    cases hd : k.deleted_at with
    | none => rfl
    | some t => rw [hd] at hb; simp at hb
  · intro hle
    rw [clean_filter_email e db hnd]
    exact mostRecent_toList_of_le_one hle

/-- Witness for C2 at a concrete table: email "a" has two active rows (ids 1
and 3, the latter most recent) and one soft-deleted row (id 2). -/
theorem claim_C2_dedup_witness :
    (∀ u ∈ (clean_duplicate_usuarios "a" dbW).usuarios, u.email = "a" → u.deleted_at = none)
    ∧ ((clean_duplicate_usuarios "a" dbW).usuarios.filter fun u => u.email == "a").length ≤ 1
    ∧ ((clean_duplicate_usuarios "a" dbW).usuarios.filter fun u => u.email == "a")
        = (mostRecent (activeWithEmail "a" dbW)).toList
    ∧ (∀ k, mostRecent (activeWithEmail "a" dbW) = some k →
        k ∈ dbW.usuarios ∧ k.deleted_at = none ∧
          ∀ v ∈ activeWithEmail "a" dbW, v.created_at ≤ k.created_at)
    ∧ ((activeWithEmail "a" dbW).length ≤ 1 →
        ((clean_duplicate_usuarios "a" dbW).usuarios.filter fun u => u.email == "a")
          = activeWithEmail "a" dbW) :=
  claim_C2_dedup "a" dbW (by decide)

/-! ### Claim C7 -/

/-- C7: the deduplication procedure is idempotent — running it twice yields
the state of running it once — and on a state with no duplicates for the
email (no soft-deleted row, at most one row carrying the email) a call
changes nothing. -/
theorem claim_C7_idempotent (e : String) (db : DBState) :
    clean_duplicate_usuarios e (clean_duplicate_usuarios e db)
        = clean_duplicate_usuarios e db
    ∧ ((db.usuarios.filter fun u => u.email == e && u.deleted_at.isSome) = [] →
        (db.usuarios.filter fun u => u.email == e).length ≤ 1 →
        clean_duplicate_usuarios e db = db) :=
  ⟨clean_idempotent e db, fun h1 h2 => clean_noop e db h1 h2⟩

/-- Witness for C7: on the concrete table `dbW`, email "b" has a single
active row and no soft-deleted rows, and the call changes nothing. -/
theorem claim_C7_idempotent_witness : clean_duplicate_usuarios "b" dbW = dbW :=
  (claim_C7_idempotent "b" dbW).2 (by decide) (by decide)

/-! ### Claim C10 -/

/-- C10: `sync_user_after_auth_creation` reports success even when the
customer id matches no `clientes` row — the UPDATE silently affects zero
rows, so a successful synchronization does not guarantee any customer points
at the new profile. -/
theorem claim_C10_sync_missing_customer (a : Nat) (e n : String) (cid : Nat) (db : DBState)
    (hfresh : ∀ u ∈ db.usuarios, u.id ≠ a)
    (hnoc : ∀ c ∈ db.clientes, c.id ≠ cid) :
    (sync_user_after_auth_creation a e n cid db).fst.success = true
    ∧ (sync_user_after_auth_creation a e n cid db).snd.clientes = db.clientes := by
  rw [sync_ok_eq (sync_any_of_fresh hfresh)]
  refine ⟨rfl, ?_⟩
  have hid : ∀ c ∈ db.clientes, sync_cliente_update a cid db.now c = id c := by
    intro c hc
    simp [sync_cliente_update, hnoc c hc]
  calc db.clientes.map (sync_cliente_update a cid db.now)
      = db.clientes.map id := List.map_congr_left hid
    _ = db.clientes := List.map_id db.clientes

/-- Witness for C10: syncing user 7 against customer id 99, which no row of
the single-customer table carries. -/
theorem claim_C10_witness :
    (sync_user_after_auth_creation 7 "e" "n" 99 wW.db).fst.success = true
    ∧ (sync_user_after_auth_creation 7 "e" "n" 99 wW.db).snd.clientes = wW.db.clientes :=
  claim_C10_sync_missing_customer 7 "e" "n" 99 wW.db (by decide) (by decide)


/-! ### Path equations for `createPortalUser` -/

theorem createPortalUser_checkFail {env : Env} {msg : String} (e p n : String) (cid : Nat)
    (w : World) (hchk : env.checkFails = some msg) :
    createPortalUser env e p n cid w
      = (failResp ("Erro ao verificar usuário existente: " ++ msg), afterClean env e w) := by
  simp [createPortalUser, hchk]

theorem createPortalUser_dup {env : Env} (e p n : String) (cid : Nat) (w : World)
    (hchk : env.checkFails = none)
    (hdup : ((activeWithEmail e (afterClean env e w).db).length == 1) = true) :
    createPortalUser env e p n cid w
      = (failResp "Este email já está cadastrado no sistema", afterClean env e w) := by
  simp [createPortalUser, hchk, hdup]

theorem createPortalUser_authErr {env : Env} {msg : String} (e p n : String) (cid : Nat)
    (w : World) (hchk : env.checkFails = none)
    (hdup : ((activeWithEmail e (afterClean env e w).db).length == 1) = false)
    (hac : env.authCreate = Except.error msg) :
    createPortalUser env e p n cid w
      = (failResp ("Erro na autenticação: " ++ msg), afterClean env e w) := by
  simp [createPortalUser, hchk, hdup, hac]

theorem createPortalUser_authMissing {env : Env} {aid : Nat} (e p n : String) (cid : Nat)
    (w : World) (hchk : env.checkFails = none)
    (hdup : ((activeWithEmail e (afterClean env e w).db).length == 1) = false)
    (hac : env.authCreate = Except.ok aid) (haum : env.authUserMissing = true) :
    createPortalUser env e p n cid w
      = (failResp "Usuário não foi criado corretamente", afterClean env e w) := by
  simp [createPortalUser, hchk, hdup, hac, haum]

theorem createPortalUser_syncRpcFail {env : Env} {aid : Nat} {msg : String}
    (e p n : String) (cid : Nat) (w : World) (hchk : env.checkFails = none)
    (hdup : ((activeWithEmail e (afterClean env e w).db).length == 1) = false)
    (hac : env.authCreate = Except.ok aid) (haum : env.authUserMissing = false)
    (hsrf : env.syncRpcFails = some msg) :
    createPortalUser env e p n cid w
      = (failResp ("Erro ao sincronizar usuário: " ++ msg),
         if env.deleteFails then
           ({ afterClean env e w with
               auth := (afterClean env e w).auth ++ [{ id := aid, email := e }] } : World)
         else
           { afterClean env e w with
               auth := (afterClean env e w).auth.filter fun a => !(a.id == aid) }) := by
  simp [createPortalUser, hchk, hdup, hac, haum, hsrf]

theorem createPortalUser_syncStructFail {env : Env} {aid : Nat} (e p n : String) (cid : Nat)
    (w : World) (hchk : env.checkFails = none)
    (hdup : ((activeWithEmail e (afterClean env e w).db).length == 1) = false)
    (hac : env.authCreate = Except.ok aid) (haum : env.authUserMissing = false)
    (hsrf : env.syncRpcFails = none)
    (hany : ((afterClean env e w).db.usuarios.any fun u => u.id == aid) = true) :
    createPortalUser env e p n cid w
      = (failResp "Erro ao sincronizar usuário: duplicate key value violates unique constraint",
         if env.deleteFails then
           ({ afterClean env e w with
               auth := (afterClean env e w).auth ++ [{ id := aid, email := e }] } : World)
         else
           { afterClean env e w with
               auth := (afterClean env e w).auth.filter fun a => !(a.id == aid) }) := by
  simp [createPortalUser, hchk, hdup, hac, haum, hsrf,
    sync_user_after_auth_creation, hany, jsOr]

theorem createPortalUser_verifyFail {env : Env} {aid : Nat} (e p n : String) (cid : Nat)
    (w : World) (hchk : env.checkFails = none)
    (hdup : ((activeWithEmail e (afterClean env e w).db).length == 1) = false)
    (hac : env.authCreate = Except.ok aid) (haum : env.authUserMissing = false)
    (hsrf : env.syncRpcFails = none)
    (hany : ((afterClean env e w).db.usuarios.any fun u => u.id == aid) = false)
    (hver : env.verifyFails = true) :
    createPortalUser env e p n cid w
      = (failResp "Usuário criado mas não encontrado na verificação",
         { auth := (afterClean env e w).auth ++ [{ id := aid, email := e }],
           db := { (afterClean env e w).db with
               usuarios := (afterClean env e w).db.usuarios
                 ++ [sync_inserted_row aid e n (afterClean env e w).db.now],
               clientes := (afterClean env e w).db.clientes.map
                 (sync_cliente_update aid cid (afterClean env e w).db.now) } }) := by
  simp [createPortalUser, hchk, hdup, hac, haum, hsrf,
    sync_user_after_auth_creation, hany, hver]

theorem createPortalUser_success {env : Env} {aid : Nat} (e p n : String) (cid : Nat)
    (w : World) (hchk : env.checkFails = none)
    (hdup : ((activeWithEmail e (afterClean env e w).db).length == 1) = false)
    (hac : env.authCreate = Except.ok aid) (haum : env.authUserMissing = false)
    (hsrf : env.syncRpcFails = none)
    (hany : ((afterClean env e w).db.usuarios.any fun u => u.id == aid) = false)
    (hver : env.verifyFails = false) :
    createPortalUser env e p n cid w
      = ({ success := true, error := none,
           message := some "Portal criado com sucesso! O cliente pode agora fazer login.",
           userId := some aid },
         { auth := (afterClean env e w).auth ++ [{ id := aid, email := e }],
           db := { (afterClean env e w).db with
               usuarios := (afterClean env e w).db.usuarios
                 ++ [sync_inserted_row aid e n (afterClean env e w).db.now],
               clientes := (afterClean env e w).db.clientes.map
                 (sync_cliente_update aid cid (afterClean env e w).db.now) } }) := by
  simp [createPortalUser, hchk, hdup, hac, haum, hsrf,
    sync_user_after_auth_creation, hany, hver, sync_inserted_row]


/-! ### Frame lemmas for `afterClean` and the customer update -/

theorem afterClean_auth (env : Env) (e : String) (w : World) :
    (afterClean env e w).auth = w.auth := by
  unfold afterClean
  split <;> rfl

theorem afterClean_clientes (env : Env) (e : String) (w : World) :
    (afterClean env e w).db.clientes = w.db.clientes := by
  unfold afterClean
  split
  · rfl
  · exact clean_clientes e w.db

theorem afterClean_sub (env : Env) (e : String) (w : World) :
    ∀ u ∈ (afterClean env e w).db.usuarios, u ∈ w.db.usuarios := by
  unfold afterClean
  split
  · exact fun u h => h
  · exact fun u hu => (mem_clean hu).1

/-- Every row of the updated customer table that carries the targeted id
references the new profile id. -/
theorem sync_clientes_ref (aid cid now : Nat) (cs : List Cliente) :
    ∀ c ∈ cs.map (sync_cliente_update aid cid now), c.id = cid →
      c.usuario_portal_id = some aid := by
  intro c hc hcid
  obtain ⟨c0, hc0, hfc⟩ := List.mem_map.mp hc
  cases h0 : c0.id == cid with
  | true =>
    rw [← hfc]
    simp [sync_cliente_update, h0]
  | false =>
    rw [← hfc] at hcid
    simp [sync_cliente_update, h0] at hcid
    rw [hcid] at h0
    simp at h0

/-! ### Claim C1 -/

/-- C1: whenever `createPortalUser` reports success, the returned `userId` is
the identifier the authentication provider assigned in step 3, a profile row
with that identifier (also used for tenant and audit fields), the given email
and name exists, and every customer row with the given id references that
identifier. -/
theorem claim_C1_success_sync (env : Env) (e p n : String) (cid : Nat) (w : World) (aid : Nat)
    (hac : env.authCreate = Except.ok aid)
    (hs : (createPortalUser env e p n cid w).fst.success = true) :
    (createPortalUser env e p n cid w).fst.userId = some aid
    ∧ (∃ u ∈ (createPortalUser env e p n cid w).snd.db.usuarios,
        u.id = aid ∧ u.email = e ∧ u.nome = n ∧ u.tenant_id = aid
          ∧ u.created_by = aid ∧ u.updated_by = aid)
    ∧ (∀ c ∈ (createPortalUser env e p n cid w).snd.db.clientes,
        c.id = cid → c.usuario_portal_id = some aid) := by
  cases hchk : env.checkFails with
  | some msg =>
    rw [createPortalUser_checkFail e p n cid w hchk] at hs
    simp [failResp] at hs
  | none =>
  cases hdup : (activeWithEmail e (afterClean env e w).db).length == 1 with
  | true =>
    rw [createPortalUser_dup e p n cid w hchk hdup] at hs
    simp [failResp] at hs
  | false =>
  cases haum : env.authUserMissing with
  | true =>
    rw [createPortalUser_authMissing e p n cid w hchk hdup hac haum] at hs
    simp [failResp] at hs
  | false =>
  cases hsrf : env.syncRpcFails with
  | some msg =>
    rw [createPortalUser_syncRpcFail e p n cid w hchk hdup hac haum hsrf] at hs
    simp [failResp] at hs
  | none =>
  cases hany : (afterClean env e w).db.usuarios.any fun u => u.id == aid with
  | true =>
    rw [createPortalUser_syncStructFail e p n cid w hchk hdup hac haum hsrf hany] at hs
    simp [failResp] at hs
  | false =>
  cases hver : env.verifyFails with
  | true =>
    rw [createPortalUser_verifyFail e p n cid w hchk hdup hac haum hsrf hany hver] at hs
    simp [failResp] at hs
  | false =>
  rw [createPortalUser_success e p n cid w hchk hdup hac haum hsrf hany hver]
  refine ⟨rfl, ⟨sync_inserted_row aid e n (afterClean env e w).db.now, ?_, ?_⟩, ?_⟩
  · exact List.mem_append_right _ (List.mem_singleton.mpr rfl)
  · simp [sync_inserted_row]
  · exact sync_clientes_ref aid cid (afterClean env e w).db.now (afterClean env e w).db.clientes

/-- Witness for C1: the all-success environment provisions "a@b.com" into the
one-customer world, returning id 7 everywhere. -/
theorem claim_C1_witness :
    (createPortalUser envOk "a@b.com" "secret1" "Ana" 1 wW).fst.userId = some 7
    ∧ (∃ u ∈ (createPortalUser envOk "a@b.com" "secret1" "Ana" 1 wW).snd.db.usuarios,
        u.id = 7 ∧ u.email = "a@b.com" ∧ u.nome = "Ana" ∧ u.tenant_id = 7
          ∧ u.created_by = 7 ∧ u.updated_by = 7)
    ∧ (∀ c ∈ (createPortalUser envOk "a@b.com" "secret1" "Ana" 1 wW).snd.db.clientes,
        c.id = 1 → c.usuario_portal_id = some 7) :=
  claim_C1_success_sync envOk "a@b.com" "secret1" "Ana" 1 wW 7 rfl (by decide)


/-! ### Claim C3 -/

/-- C3 (amended): when the synchronization step fails — the RPC errors or the
procedure reports `success: false` — the call returns a failure embedding the
underlying reason; a failure of the compensating `deleteUser` does not change
the returned outcome (the response is identical whichever way the delete
goes); when the compensating delete succeeds, no AuthIdentity created by this
call remains (the provider store returns to its prior state), while when it
fails the created AuthIdentity is left behind as the only residue; and in
every case no Profile row created by the call survives and the customer table
is untouched. -/
theorem claim_C3_sync_failure_compensation (env : Env) (e p n : String) (cid : Nat)
    (w : World) (aid : Nat)
    (hchk : env.checkFails = none)
    (hdup : ((activeWithEmail e (afterClean env e w).db).length == 1) = false)
    (hac : env.authCreate = Except.ok aid)
    (haum : env.authUserMissing = false)
    (hfail : env.syncRpcFails ≠ none
      ∨ ((afterClean env e w).db.usuarios.any fun u => u.id == aid) = true)
    (hfresh : ∀ a ∈ w.auth, a.id ≠ aid) :
    (createPortalUser env e p n cid w).fst.success = false
    ∧ (∀ msg, env.syncRpcFails = some msg →
        (createPortalUser env e p n cid w).fst.error
          = some ("Erro ao sincronizar usuário: " ++ msg))
    ∧ (env.syncRpcFails = none →
        (createPortalUser env e p n cid w).fst.error
          = some "Erro ao sincronizar usuário: duplicate key value violates unique constraint")
    ∧ (∀ b : Bool, (createPortalUser { env with deleteFails := b } e p n cid w).fst
        = (createPortalUser env e p n cid w).fst)
    ∧ (env.deleteFails = false → (createPortalUser env e p n cid w).snd.auth = w.auth)
    ∧ (env.deleteFails = true →
        ∃ a ∈ (createPortalUser env e p n cid w).snd.auth, a.id = aid ∧ a.email = e)
    ∧ (∀ u ∈ (createPortalUser env e p n cid w).snd.db.usuarios, u ∈ w.db.usuarios)
    ∧ (createPortalUser env e p n cid w).snd.db.clientes = w.db.clientes := by
  have hauth_clean : ((afterClean env e w).auth.filter fun a => !(a.id == aid)) = w.auth := by
    rw [afterClean_auth]
    rw [List.filter_eq_self]
    intro a ha
    simp [hfresh a ha]
  cases hsrf : env.syncRpcFails with
  | some msg =>
    rw [createPortalUser_syncRpcFail e p n cid w hchk hdup hac haum hsrf]
    refine ⟨rfl, ?_, ?_, ?_, ?_, ?_, ?_, ?_⟩
    · intro msg2 h2
      cases h2
      rfl
    · intro h2
      exact Option.noConfusion h2
    · intro b
      rw [@createPortalUser_syncRpcFail { env with deleteFails := b, syncRpcFails := some msg }
        aid msg e p n cid w hchk hdup hac haum rfl]
    · intro hdel
      rw [hdel]
      simp only [Bool.false_eq_true, if_false]
      exact hauth_clean
    · intro hdel
      rw [hdel]
      simp only [reduceIte]
      exact ⟨{ id := aid, email := e },
        List.mem_append_right _ (List.mem_singleton.mpr rfl), rfl, rfl⟩
    · cases hdf : env.deleteFails with
      | true =>
        simp only [reduceIte]
        exact afterClean_sub env e w
      | false =>
        simp only [Bool.false_eq_true, if_false]
        exact afterClean_sub env e w
    · cases hdf : env.deleteFails with
      | true =>
        simp only [reduceIte]
        exact afterClean_clientes env e w
      | false =>
        simp only [Bool.false_eq_true, if_false]
        exact afterClean_clientes env e w
  | none =>
    have hany : ((afterClean env e w).db.usuarios.any fun u => u.id == aid) = true := by
      cases hfail with
      | inl h => exact absurd hsrf h
      | inr h => exact h
    rw [createPortalUser_syncStructFail e p n cid w hchk hdup hac haum hsrf hany]
    refine ⟨rfl, ?_, fun _ => rfl, ?_, ?_, ?_, ?_, ?_⟩
    · intro msg2 h2
      exact Option.noConfusion h2
    · intro b
      rw [@createPortalUser_syncStructFail { env with deleteFails := b, syncRpcFails := none }
        aid e p n cid w hchk hdup hac haum rfl hany]
    · intro hdel
      rw [hdel]
      simp only [Bool.false_eq_true, if_false]
      exact hauth_clean
    · intro hdel
      rw [hdel]
      simp only [reduceIte]
      exact ⟨{ id := aid, email := e },
        List.mem_append_right _ (List.mem_singleton.mpr rfl), rfl, rfl⟩
    · cases hdf : env.deleteFails with
      | true =>
        simp only [reduceIte]
        exact afterClean_sub env e w
      | false =>
        simp only [Bool.false_eq_true, if_false]
        exact afterClean_sub env e w
    · cases hdf : env.deleteFails with
      | true =>
        simp only [reduceIte]
        exact afterClean_clientes env e w
      | false =>
        simp only [Bool.false_eq_true, if_false]
        exact afterClean_clientes env e w

def envC3 : Env := { envOk with syncRpcFails := some "net", deleteFails := true }

/-- Counterexample to C3 as stated: when the compensating delete itself
fails, the call still reports the synchronization failure with the embedded
reason, yet the AuthIdentity created in step 3 (id 7, email "e") remains in
the provider store — the residual-free guarantee does not cover this path. -/
theorem claim_C3_counterexample :
    (createPortalUser envC3 "e" "p" "N" 1 wW).fst.success = false
    ∧ (createPortalUser envC3 "e" "p" "N" 1 wW).fst.error
        = some "Erro ao sincronizar usuário: net"
    ∧ (createPortalUser envC3 "e" "p" "N" 1 wW).snd.auth = [{ id := 7, email := "e" }] := by
  decide

def envC3ok : Env := { envOk with syncRpcFails := some "net" }

/-- Witness for C3: a failing synchronization RPC; the response embeds the
reason and is unchanged under either delete outcome, and with the delete
succeeding the world returns to its initial state. -/
theorem claim_C3_witness :
    (createPortalUser envC3ok "e" "p" "N" 1 wW).fst.success = false
    ∧ (∀ msg, envC3ok.syncRpcFails = some msg →
        (createPortalUser envC3ok "e" "p" "N" 1 wW).fst.error
          = some ("Erro ao sincronizar usuário: " ++ msg))
    ∧ (envC3ok.syncRpcFails = none →
        (createPortalUser envC3ok "e" "p" "N" 1 wW).fst.error
          = some "Erro ao sincronizar usuário: duplicate key value violates unique constraint")
    ∧ (∀ b : Bool, (createPortalUser { envC3ok with deleteFails := b } "e" "p" "N" 1 wW).fst
        = (createPortalUser envC3ok "e" "p" "N" 1 wW).fst)
    ∧ (envC3ok.deleteFails = false →
        (createPortalUser envC3ok "e" "p" "N" 1 wW).snd.auth = wW.auth)
    ∧ (envC3ok.deleteFails = true →
        ∃ a ∈ (createPortalUser envC3ok "e" "p" "N" 1 wW).snd.auth, a.id = 7 ∧ a.email = "e")
    ∧ (∀ u ∈ (createPortalUser envC3ok "e" "p" "N" 1 wW).snd.db.usuarios, u ∈ wW.db.usuarios)
    ∧ (createPortalUser envC3ok "e" "p" "N" 1 wW).snd.db.clientes = wW.db.clientes :=
  claim_C3_sync_failure_compensation envC3ok "e" "p" "N" 1 wW 7
    rfl (by decide) rfl rfl (Or.inl (by decide)) (by decide)

/-! ### Claim C4 -/

/-- No message built by prefixing "Erro na autenticação: " can be the
duplicate-email message: the second characters differ. -/
theorem auth_prefix_ne_dup (msg : String) :
    ("Erro na autenticação: " ++ msg) ≠ "Este email já está cadastrado no sistema" := by
  intro h
  have hd := congrArg String.data h
  rw [String.data_append] at hd
  have h1 : ("Erro na autenticação: ").data
      = 'E' :: 'r' :: ("ro na autenticação: ").data := by decide
  have h2 : ("Este email já está cadastrado no sistema").data
      = 'E' :: 's' :: ("te email já está cadastrado no sistema").data := by decide
  rw [h1, h2] at hd
  simp at hd

/-- No message built by prefixing "Erro ao sincronizar usuário: " can be the
duplicate-email message: the second characters differ. -/
theorem sync_prefix_ne_dup (msg : String) :
    ("Erro ao sincronizar usuário: " ++ msg) ≠ "Este email já está cadastrado no sistema" := by
  intro h
  have hd := congrArg String.data h
  rw [String.data_append] at hd
  have h1 : ("Erro ao sincronizar usuário: ").data
      = 'E' :: 'r' :: ("ro ao sincronizar usuário: ").data := by decide
  have h2 : ("Este email já está cadastrado no sistema").data
      = 'E' :: 's' :: ("te email já está cadastrado no sistema").data := by decide
  rw [h1, h2] at hd
  simp at hd

/-- C4 (amended): when the existence check finds exactly one non-deleted
profile with the email — the only shape the single-row fetch reports as a
hit — the call fails with the duplicate-email error and writes nothing after
the check: the provider store and the customer table are unchanged and no
profile row is inserted (every surviving row already existed), though the
deduplication step preceding the check may already have deleted soft-deleted
or duplicate profile rows for that email; when the check instead sees zero or
two-plus non-deleted rows (the latter reachable when deduplication fails),
the single-row fetch errors with the tolerated PGRST116 code and the call
proceeds without ever returning the duplicate-email failure. -/
theorem claim_C4_duplicate_email (env : Env) (e p n : String) (cid : Nat) (w : World)
    (hchk : env.checkFails = none) :
    ((activeWithEmail e (afterClean env e w).db).length = 1 →
      (createPortalUser env e p n cid w).fst
          = failResp "Este email já está cadastrado no sistema"
      ∧ (createPortalUser env e p n cid w).snd.auth = w.auth
      ∧ (createPortalUser env e p n cid w).snd.db.clientes = w.db.clientes
      ∧ (∀ u ∈ (createPortalUser env e p n cid w).snd.db.usuarios, u ∈ w.db.usuarios))
    ∧ ((activeWithEmail e (afterClean env e w).db).length ≠ 1 →
      (createPortalUser env e p n cid w).fst
          ≠ failResp "Este email já está cadastrado no sistema") := by
  constructor
  · intro hlen
    have hdup : ((activeWithEmail e (afterClean env e w).db).length == 1) = true := by
      simp [hlen]
    rw [createPortalUser_dup e p n cid w hchk hdup]
    exact ⟨rfl, afterClean_auth env e w, afterClean_clientes env e w, afterClean_sub env e w⟩
  · intro hlen
    have hdup : ((activeWithEmail e (afterClean env e w).db).length == 1) = false :=
      beq_eq_false_iff_ne.mpr hlen
    cases hac : env.authCreate with
    | error msg =>
      rw [createPortalUser_authErr e p n cid w hchk hdup hac]
      intro h
      have h2 := congrArg Response.error h
      simp only [failResp, Option.some.injEq] at h2
      exact auth_prefix_ne_dup msg h2
    | ok aid =>
      cases haum : env.authUserMissing with
      | true =>
        rw [createPortalUser_authMissing e p n cid w hchk hdup hac haum]
        intro h
        have h2 := congrArg Response.error h
        simp only [failResp, Option.some.injEq] at h2
        exact absurd h2 (by decide)
      | false =>
        cases hsrf : env.syncRpcFails with
        | some msg =>
          rw [createPortalUser_syncRpcFail e p n cid w hchk hdup hac haum hsrf]
          intro h
          have h3 : failResp ("Erro ao sincronizar usuário: " ++ msg)
              = failResp "Este email já está cadastrado no sistema" := h
          have h2 := congrArg Response.error h3
          simp only [failResp, Option.some.injEq] at h2
          exact sync_prefix_ne_dup msg h2
        | none =>
          cases hany : (afterClean env e w).db.usuarios.any fun u => u.id == aid with
          | true =>
            rw [createPortalUser_syncStructFail e p n cid w hchk hdup hac haum hsrf hany]
            intro h
            have h3 : failResp
                  "Erro ao sincronizar usuário: duplicate key value violates unique constraint"
                = failResp "Este email já está cadastrado no sistema" := h
            have h2 := congrArg Response.error h3
            simp only [failResp, Option.some.injEq] at h2
            exact absurd h2 (by decide)
          | false =>
            cases hver : env.verifyFails with
            | true =>
              rw [createPortalUser_verifyFail e p n cid w hchk hdup hac haum hsrf hany hver]
              intro h
              have h2 := congrArg Response.error h
              simp only [failResp, Option.some.injEq] at h2
              exact absurd h2 (by decide)
            | false =>
              rw [createPortalUser_success e p n cid w hchk hdup hac haum hsrf hany hver]
              intro h
              have h2 := congrArg Response.success h
              simp [failResp] at h2

def wA : World := { auth := [], db := { usuarios := [rowA1, rowA2], clientes := [], now := 50 } }

def envC4b : Env := { envOk with cleanFails := true }

def wA2 : World := { auth := [], db := { usuarios := [rowA1, rowA3], clientes := [], now := 50 } }

/-- Counterexample to C4 as stated, in both directions.  First: on a table
holding one active and one soft-deleted row for the email, the call does
return the duplicate-email failure, yet the profile table changed — the
deduplication step of the very same call deleted the soft-deleted row,
contradicting "performs no writes".  Second: on a table holding two active
rows for the email while the deduplication RPC fails (so both survive to the
existence check), non-deleted profile rows exist at the check, yet the call
does not return the duplicate-email failure at all — the single-row fetch
errors with the tolerated PGRST116 code and the call proceeds to full
success. -/
theorem claim_C4_counterexample :
    ((createPortalUser envOk "a" "p" "N" 1 wA).fst.error
        = some "Este email já está cadastrado no sistema"
      ∧ (createPortalUser envOk "a" "p" "N" 1 wA).snd.db.usuarios ≠ wA.db.usuarios)
    ∧ ((activeWithEmail "a" (afterClean envC4b "a" wA2).db).length = 2
      ∧ (createPortalUser envC4b "a" "p" "N" 1 wA2).fst.success = true
      ∧ (createPortalUser envC4b "a" "p" "N" 1 wA2).fst.error = none) := by decide

/-- Witness for C4: the duplicate-email path on the concrete one-active plus
one-soft-deleted table, with the frame facts of the amended claim. -/
theorem claim_C4_witness :
    (createPortalUser envOk "a" "p" "N" 1 wA).fst
        = failResp "Este email já está cadastrado no sistema"
    ∧ (createPortalUser envOk "a" "p" "N" 1 wA).snd.auth = wA.auth
    ∧ (createPortalUser envOk "a" "p" "N" 1 wA).snd.db.clientes = wA.db.clientes
    ∧ (∀ u ∈ (createPortalUser envOk "a" "p" "N" 1 wA).snd.db.usuarios, u ∈ wA.db.usuarios) :=
  (claim_C4_duplicate_email envOk "a" "p" "N" 1 wA rfl).1 (by decide)

/-! ### Claim C6 -/

/-- C6 (amended): when the provider's `createUser` fails, the call fails with
the provider's message embedded after the fixed prefix "Erro na autenticação: "
(not verbatim), and nothing further happens: no `deleteUser` call (the
provider store is unchanged) and no table write after the deduplication
step. -/
theorem claim_C6_auth_error (env : Env) (e p n : String) (cid : Nat) (w : World) (msg : String)
    (hchk : env.checkFails = none)
    (hdup : ((activeWithEmail e (afterClean env e w).db).length == 1) = false)
    (hac : env.authCreate = Except.error msg) :
    (createPortalUser env e p n cid w).fst = failResp ("Erro na autenticação: " ++ msg)
    ∧ (createPortalUser env e p n cid w).snd.auth = w.auth
    ∧ (createPortalUser env e p n cid w).snd.db.clientes = w.db.clientes
    ∧ (∀ u ∈ (createPortalUser env e p n cid w).snd.db.usuarios, u ∈ w.db.usuarios) := by
  rw [createPortalUser_authErr e p n cid w hchk hdup hac]
  exact ⟨rfl, afterClean_auth env e w, afterClean_clientes env e w, afterClean_sub env e w⟩

def envC6 : Env := { envOk with authCreate := Except.error "boom" }

/-- Counterexample to C6 as stated: the provider reports "boom" but the
returned error is not the provider message verbatim. -/
theorem claim_C6_counterexample :
    (createPortalUser envC6 "e" "p" "N" 1 wW).fst.success = false
    ∧ (createPortalUser envC6 "e" "p" "N" 1 wW).fst.error ≠ some "boom" := by decide

/-- Witness for C6 at the same concrete input: the returned error is the
prefixed provider message and the world is untouched. -/
theorem claim_C6_witness :
    (createPortalUser envC6 "e" "p" "N" 1 wW).fst = failResp ("Erro na autenticação: " ++ "boom")
    ∧ (createPortalUser envC6 "e" "p" "N" 1 wW).snd.auth = wW.auth
    ∧ (createPortalUser envC6 "e" "p" "N" 1 wW).snd.db.clientes = wW.db.clientes
    ∧ (∀ u ∈ (createPortalUser envC6 "e" "p" "N" 1 wW).snd.db.usuarios, u ∈ wW.db.usuarios) :=
  claim_C6_auth_error envC6 "e" "p" "N" 1 wW "boom" rfl (by decide) rfl

/-! ### Claim C9 -/

/-- C9: when the final verification re-fetch fails, the call reports failure
but performs no compensation: the AuthIdentity created in step 3 remains in
the provider store, the profile row inserted by the synchronization remains,
and the customer rows matching the given id still reference the new
identifier. -/
theorem claim_C9_verify_failure_keeps_state (env : Env) (e p n : String) (cid : Nat)
    (w : World) (aid : Nat)
    (hchk : env.checkFails = none)
    (hdup : ((activeWithEmail e (afterClean env e w).db).length == 1) = false)
    (hac : env.authCreate = Except.ok aid)
    (haum : env.authUserMissing = false)
    (hsrf : env.syncRpcFails = none)
    (hfresh : ∀ u ∈ w.db.usuarios, u.id ≠ aid)
    (hver : env.verifyFails = true) :
    (createPortalUser env e p n cid w).fst
        = failResp "Usuário criado mas não encontrado na verificação"
    ∧ (∃ a ∈ (createPortalUser env e p n cid w).snd.auth, a.id = aid ∧ a.email = e)
    ∧ (∃ u ∈ (createPortalUser env e p n cid w).snd.db.usuarios, u.id = aid ∧ u.email = e)
    ∧ (∀ c ∈ (createPortalUser env e p n cid w).snd.db.clientes,
        c.id = cid → c.usuario_portal_id = some aid) := by
  have hany : ((afterClean env e w).db.usuarios.any fun u => u.id == aid) = false := by
    rw [List.any_eq_false]
    intro u hu
    simp [hfresh u (afterClean_sub env e w u hu)]
  rw [createPortalUser_verifyFail e p n cid w hchk hdup hac haum hsrf hany hver]
  refine ⟨rfl, ⟨{ id := aid, email := e }, ?_, rfl, rfl⟩,
    ⟨sync_inserted_row aid e n (afterClean env e w).db.now, ?_, rfl, rfl⟩, ?_⟩
  · exact List.mem_append_right _ (List.mem_singleton.mpr rfl)
  · exact List.mem_append_right _ (List.mem_singleton.mpr rfl)
  · exact sync_clientes_ref aid cid (afterClean env e w).db.now (afterClean env e w).db.clientes

def envC9 : Env := { envOk with verifyFails := true }

/-- Witness for C9: the verification-failure environment on the one-customer
world leaves the created identity, profile and customer reference behind. -/
theorem claim_C9_witness :
    (createPortalUser envC9 "e" "p" "N" 1 wW).fst
        = failResp "Usuário criado mas não encontrado na verificação"
    ∧ (∃ a ∈ (createPortalUser envC9 "e" "p" "N" 1 wW).snd.auth, a.id = 7 ∧ a.email = "e")
    ∧ (∃ u ∈ (createPortalUser envC9 "e" "p" "N" 1 wW).snd.db.usuarios,
        u.id = 7 ∧ u.email = "e")
    ∧ (∀ c ∈ (createPortalUser envC9 "e" "p" "N" 1 wW).snd.db.clientes,
        c.id = 1 → c.usuario_portal_id = some 7) :=
  claim_C9_verify_failure_keeps_state envC9 "e" "p" "N" 1 wW 7 rfl (by decide) rfl rfl rfl
    (by decide) rfl


/-! ### Claim C5 -/

/-- C5: for every input and every outcome of the remote calls, the
provisioning workflow produces a structured value — success with no error, or
failure with an error message — and likewise every outcome of the
synchronization procedure (including the uniqueness violation on the insert)
is a structured success or a failure carrying an error message. -/
theorem claim_C5_structured_failures (env : Env) (e p n : String) (cid : Nat) (w : World)
    (a2 : Nat) (e2 n2 : String) (cid2 : Nat) (db2 : DBState) :
    (((createPortalUser env e p n cid w).fst.success = true
        ∧ (createPortalUser env e p n cid w).fst.error = none)
      ∨ ((createPortalUser env e p n cid w).fst.success = false
        ∧ ((createPortalUser env e p n cid w).fst.error).isSome = true))
    ∧ ((sync_user_after_auth_creation a2 e2 n2 cid2 db2).fst.success = true
      ∨ ((sync_user_after_auth_creation a2 e2 n2 cid2 db2).fst.success = false
        ∧ ((sync_user_after_auth_creation a2 e2 n2 cid2 db2).fst.error).isSome = true)) := by
  constructor
  · cases hchk : env.checkFails with
    | some msg =>
      rw [createPortalUser_checkFail e p n cid w hchk]
      exact Or.inr ⟨rfl, rfl⟩
    | none =>
    cases hdup : (activeWithEmail e (afterClean env e w).db).length == 1 with
    | true =>
      rw [createPortalUser_dup e p n cid w hchk hdup]
      exact Or.inr ⟨rfl, rfl⟩
    | false =>
    cases hac : env.authCreate with
    | error msg =>
      rw [createPortalUser_authErr e p n cid w hchk hdup hac]
      exact Or.inr ⟨rfl, rfl⟩
    | ok aid =>
    cases haum : env.authUserMissing with
    | true =>
      rw [createPortalUser_authMissing e p n cid w hchk hdup hac haum]
      exact Or.inr ⟨rfl, rfl⟩
    | false =>
    cases hsrf : env.syncRpcFails with
    | some msg =>
      rw [createPortalUser_syncRpcFail e p n cid w hchk hdup hac haum hsrf]
      exact Or.inr ⟨rfl, rfl⟩
    | none =>
    cases hany : (afterClean env e w).db.usuarios.any fun u => u.id == aid with
    | true =>
      rw [createPortalUser_syncStructFail e p n cid w hchk hdup hac haum hsrf hany]
      exact Or.inr ⟨rfl, rfl⟩
    | false =>
    cases hver : env.verifyFails with
    | true =>
      rw [createPortalUser_verifyFail e p n cid w hchk hdup hac haum hsrf hany hver]
      exact Or.inr ⟨rfl, rfl⟩
    | false =>
      rw [createPortalUser_success e p n cid w hchk hdup hac haum hsrf hany hver]
      exact Or.inl ⟨rfl, rfl⟩
  · cases hany2 : db2.usuarios.any fun u => u.id == a2 with
    | true =>
      rw [sync_fail_eq hany2]
      exact Or.inr ⟨rfl, rfl⟩
    | false =>
      rw [sync_ok_eq hany2]
      exact Or.inl rfl

/-! ### Claim C8 -/

/-- C8: `testUserSync` performs no writes for any environment and world, and
when the provider store holds a user with the email and the profile table
holds exactly one non-deleted row with it (the shape the at-most-one
invariant guarantees whenever a profile exists), it reports both identifiers
with `idsMatch` true exactly when they coincide. -/
theorem claim_C8_testUserSync (env : TestEnv) (email : String) (w : World)
    (a : AuthUser) (u : Usuario)
    (hl : env.listFails = false) (hf : env.fetchFails = false)
    (hfind : (w.auth.find? fun x => x.email == email) = some a)
    (hone : (w.db.usuarios.filter fun v => v.email == email && v.deleted_at.isNone) = [u]) :
    (∀ env2 : TestEnv, ∀ w2 : World, (testUserSync env2 email w2).snd = w2)
    ∧ (testUserSync env email w).fst
        = some { authId := a.id, publicId := u.id, idsMatch := a.id == u.id }
    ∧ ((a.id == u.id) = true ↔ a.id = u.id) := by
  refine ⟨?_, ?_, ⟨fun h => eq_of_beq h, fun h => h ▸ beq_self_eq_true a.id⟩⟩
  · intro env2 w2
    cases h1 : env2.listFails with
    | true => simp [testUserSync, h1]
    | false =>
      cases h2 : w2.auth.find? fun x => x.email == email with
      | none => simp [testUserSync, h1, h2]
      | some a2 =>
        cases h3 : env2.fetchFails with
        | true => simp [testUserSync, h1, h2, h3]
        | false =>
          cases h4 : w2.db.usuarios.filter fun v => v.email == email && v.deleted_at.isNone with
          | nil => simp [testUserSync, h1, h2, h3, h4]
          | cons x xs =>
            cases xs with
            | nil => simp [testUserSync, h1, h2, h3, h4]
            | cons y ys => simp [testUserSync, h1, h2, h3, h4]
  · simp [testUserSync, hl, hf, hfind, hone]

def rowE3 : Usuario :=
  { id := 3, nome := "n", email := "e", tipo_usuario := "cliente", tenant_id := 3,
    created_by := 3, updated_by := 3, deleted_at := none, created_at := 5 }

def wTS : World :=
  { auth := [{ id := 3, email := "e" }],
    db := { usuarios := [rowE3], clientes := [], now := 0 } }

/-- Witness for C8: a synchronized pair (both ids 3) in a concrete world. -/
theorem claim_C8_witness :
    (∀ env2 : TestEnv, ∀ w2 : World, (testUserSync env2 "e" w2).snd = w2)
    ∧ (testUserSync { listFails := false, fetchFails := false } "e" wTS).fst
        = some { authId := (3 : Nat), publicId := rowE3.id,
                 idsMatch := (3 : Nat) == rowE3.id }
    ∧ (((3 : Nat) == rowE3.id) = true ↔ (3 : Nat) = rowE3.id) :=
  claim_C8_testUserSync { listFails := false, fetchFails := false } "e" wTS
    { id := 3, email := "e" } rowE3 rfl rfl (by decide) (by decide)


end PortalFix
